import Mathlib

/-!
Shallow embedding of the OTP issuance/verification subsystem of the GCC
calculator web application.  Two implementations exist in the repository:

* the Flask module `app.py`, whose OTP storage is keyed by a random id
  (`secrets.token_urlsafe(16)`) kept in the user session
  (`send_otp`, `verify_otp`, `is_email_verified`, `add_verified_email`,
  `generate_otp`);
* the serverless handler pair `api/send-otp/__init__.py` and
  `api/verify-otp/__init__.py`, whose storage is keyed by email and which
  performs email-syntax validation and personal-domain blocking
  (`is_valid_email`, `is_personal_email`).

Python dicts are modelled as functional maps `String → Option α`; the wall
clock is an explicit `now : Nat` parameter in seconds; the random code and
id generators are explicit parameters constrained by the hypotheses their
Python counterparts guarantee (`random.randint 100000 999999`,
fresh `secrets.token_urlsafe`); the notifier outcome is an explicit
`delivered : Bool` (in `app.py`, `send_email` catches every exception in
both the SendGrid and the SMTP branch and returns a boolean).
-/

namespace GccOtp

/-- Functional map standing for a Python dict keyed by strings. -/
def StoreMap (α : Type) : Type := String → Option α

/-- The empty dict. -/
def StoreMap.empty {α : Type} : StoreMap α := fun _ => none

/-- Dict update `m[k] = v`. -/
def StoreMap.insert {α : Type} (m : StoreMap α) (k : String) (v : α) : StoreMap α :=
  fun k' => if k' = k then some v else m k'

/-- Dict deletion `del m[k]`. -/
def StoreMap.erase {α : Type} (m : StoreMap α) (k : String) : StoreMap α :=
  fun k' => if k' = k then none else m k'

theorem StoreMap.insert_self {α : Type} (m : StoreMap α) (k : String) (v : α) :
    m.insert k v k = some v := by
  simp [StoreMap.insert]

theorem StoreMap.insert_ne {α : Type} (m : StoreMap α) (k k' : String) (v : α)
    (h : k' ≠ k) : m.insert k v k' = m k' := by
  simp [StoreMap.insert, h]

theorem StoreMap.erase_self {α : Type} (m : StoreMap α) (k : String) :
    m.erase k k = none := by
  simp [StoreMap.erase]

theorem StoreMap.erase_ne {α : Type} (m : StoreMap α) (k k' : String)
    (h : k' ≠ k) : m.erase k k' = m k' := by
  simp [StoreMap.erase, h]

/-- The whitespace class of Python's `str.strip()`: space, tab, newline,
carriage return, vertical tab, form feed. -/
def pyWhitespace (c : Char) : Bool :=
  c = ' ' || c = '\t' || c = '\n' || c = '\r' || c = '\x0b' || c = '\x0c'

/-- Python's `str.lower()` (ASCII behavior): lower-case every character. -/
def pyLower (s : String) : String :=
  ⟨s.data.map Char.toLower⟩

/-- Python's `str.strip()`: drop leading and trailing whitespace. -/
def pyStrip (s : String) : String :=
  ⟨((s.data.dropWhile pyWhitespace).reverse.dropWhile pyWhitespace).reverse⟩

/-- The normalization `s.lower().strip()` the handlers apply to the raw
email field. -/
def pyNorm (s : String) : String :=
  pyStrip (pyLower s)

/-- An entry of `otp_storage` in `app.py` (`send_otp`, lines 862-868):
`{'email', 'otp', 'organization', 'created_at', 'attempts'}`. -/
structure OtpRecord where
  email : String
  otp : String
  organization : String
  created_at : Nat
  attempts : Nat
deriving Repr, DecidableEq

/-- An entry of `session['verified_emails']` in `app.py`
(`add_verified_email`): `{'organization', 'verified_at'}`. -/
structure VerifiedEntry where
  organization : String
  verified_at : Nat
deriving Repr, DecidableEq

/-- The parts of the Flask session the OTP flow reads and writes:
`session['otp_id']`, `session['pending_email']`, `session['verified_emails']`. -/
structure Session where
  otp_id : Option String
  pending_email : Option String
  verified_emails : StoreMap VerifiedEntry

/-- The mutable state of the Flask OTP flow: the module-level `otp_storage`
dict plus the per-user session. -/
structure AppState where
  otp_storage : StoreMap OtpRecord
  session : Session

/-- Embedding of `is_email_verified` in `app.py` (lines 433-447): look the
email up in `session['verified_emails']`; a hit younger than 24 hours is
valid; a stale hit is deleted from the session and reported unverified.
Returns the boolean together with the (possibly purged) session. -/
def is_email_verified (now : Nat) (email : String) (sess : Session) :
    Bool × Session :=
  match sess.verified_emails email with
  | none => (false, sess)
  | some entry =>
    if now - entry.verified_at < 24 * 60 * 60 then
      (true, sess)
    else
      (false, { sess with verified_emails := sess.verified_emails.erase email })

/-- Embedding of `add_verified_email` in `app.py` (lines 449-457):
unconditionally overwrite the entry for the email. -/
def add_verified_email (email organization : String) (now : Nat)
    (sess : Session) : Session :=
  { sess with
      verified_emails :=
        sess.verified_emails.insert email ⟨organization, now⟩ }

/-- Embedding of `generate_otp` in `app.py` (lines 429-431):
`str(random.randint(100000, 999999))`.  The random draw is the parameter
`n`; `random.randint` guarantees `100000 ≤ n ≤ 999999`.  Decimal
stringification of `n` is spelled out as the base-10 digit list of `n`,
most significant first, rendered as ASCII digit characters. -/
def generate_otp (n : Nat) : String :=
  ⟨(Nat.digits 10 n).reverse.map fun d => Char.ofNat (48 + d)⟩

/-- Reads a string of ASCII digits back as a number (the integer value of
the generated code). -/
def decodeDigits (s : String) : Nat :=
  s.data.foldl (fun a c => 10 * a + (c.toNat - 48)) 0

/-- The four distinct JSON responses of `/api/send-otp` in `app.py`:
the 400 missing-field error, the `already_verified` shortcut, the
`success: true` response when the email was delivered, and the
`success: true` response carrying the `demo_otp` field when delivery
failed. -/
inductive SendResult where
  | missingFields
  | alreadyVerified
  | sentOk
  | demoOtp (otp : String)
deriving Repr, DecidableEq

/-- Whether the response body carries `success: true`. -/
def SendResult.success_flag : SendResult → Bool
  | .sentOk => true
  | .demoOtp _ => true
  | _ => false

/-- The `demo_otp` field of the response body, when present. -/
def SendResult.demo_otp : SendResult → Option String
  | .demoOtp c => some c
  | _ => none

/-- Embedding of the body of `send_otp` in `app.py` (lines 840-913) after
field extraction: normalize the inputs, shortcut if the email is already
verified, otherwise store a fresh record under `freshId`, remember the id
and the pending email in the session, and answer according to whether the
notifier delivered.  `freshId` stands for `secrets.token_urlsafe(16)` and
`otpCode` for `generate_otp()`. -/
def send_otp_core (now : Nat) (freshId otpCode : String) (delivered : Bool)
    (email organization : String) (st : AppState) : SendResult × AppState :=
  if email = "" ∨ organization = "" then
    (.missingFields, st)
  else
    match is_email_verified now email st.session with
    | (true, sess1) => (.alreadyVerified, { st with session := sess1 })
    | (false, sess1) =>
      let record : OtpRecord :=
        { email := email, otp := otpCode, organization := organization,
          created_at := now, attempts := 0 }
      let storage1 := st.otp_storage.insert freshId record
      let sess2 :=
        { sess1 with otp_id := some freshId, pending_email := some email }
      if delivered then
        (.sentOk, { otp_storage := storage1, session := sess2 })
      else
        (.demoOtp otpCode, { otp_storage := storage1, session := sess2 })

/-- `send_otp` with the normalization the handler applies to the raw JSON
fields: `email.lower().strip()`, `organization.strip()`. -/
def send_otp (now : Nat) (freshId otpCode : String) (delivered : Bool)
    (email organization : String) (st : AppState) : SendResult × AppState :=
  send_otp_core now freshId otpCode delivered (pyNorm email)
    (pyStrip organization) st

/-- The seven distinct JSON responses of `/api/verify-otp` in `app.py`
(lines 919-974), one constructor per return site: the 400 missing-field
error, `'OTP session expired'`, `'OTP expired'`, `'Too many attempts'`,
`'Email mismatch'`, the success response, and
`'Invalid OTP. N attempts remaining.'`. -/
inductive VerifyResult where
  | missingFields
  | sessionExpired
  | otpExpired
  | tooManyAttempts
  | emailMismatch
  | success
  | invalidCode (remaining : Nat)
deriving Repr, DecidableEq

/-- The spec-level `Expired` outcome: the code answers
`'OTP session expired'` when the id is absent (never issued, or already
consumed) and `'OTP expired'` on true expiry; the spec conflates both as
`Expired`. -/
def VerifyResult.isExpired : VerifyResult → Bool
  | .sessionExpired => true
  | .otpExpired => true
  | _ => false

/-- Embedding of the body of `verify_otp` in `app.py` (lines 919-974)
after field extraction: look up the session's `otp_id` in `otp_storage`;
absent id answers `'OTP session expired'`; a record older than 600
seconds is deleted and answers `'OTP expired'`; a record with
`attempts >= 3` is deleted and answers `'Too many attempts'`; otherwise
the attempt counter is incremented and persisted first, then the email is
compared (mismatch answers without deleting), then the code: a match
records the verified email, deletes the record and clears the session
keys; a miss answers `'Invalid OTP'` with `3 - attempts` remaining. -/
def verify_otp_core (now : Nat) (email otp : String) (st : AppState) :
    VerifyResult × AppState :=
  if email = "" ∨ otp = "" then
    (.missingFields, st)
  else
    match st.session.otp_id with
    | none => (.sessionExpired, st)
    | some otp_id =>
      match st.otp_storage otp_id with
      | none => (.sessionExpired, st)
      | some otp_data =>
        if now - otp_data.created_at > 600 then
          (.otpExpired, { st with otp_storage := st.otp_storage.erase otp_id })
        else if otp_data.attempts ≥ 3 then
          (.tooManyAttempts,
            { st with otp_storage := st.otp_storage.erase otp_id })
        else
          let otp_data1 := { otp_data with attempts := otp_data.attempts + 1 }
          let storage1 := st.otp_storage.insert otp_id otp_data1
          if otp_data1.email ≠ email then
            (.emailMismatch, { st with otp_storage := storage1 })
          else if otp_data1.otp = otp then
            (.success,
              { otp_storage := storage1.erase otp_id,
                session :=
                  { (add_verified_email email otp_data1.organization now
                        st.session) with
                      otp_id := none, pending_email := none } })
          else
            (.invalidCode (3 - otp_data1.attempts),
              { st with otp_storage := storage1 })

/-- `verify_otp` with the normalization the handler applies to the raw
JSON fields: `email.lower().strip()`, `otp.strip()`. -/
def verify_otp (now : Nat) (email otp : String) (st : AppState) :
    VerifyResult × AppState :=
  verify_otp_core now (pyNorm email) (pyStrip otp) st

/-- Character class `[a-zA-Z0-9._%+-]` of the local part of the email
regex in `api/send-otp/__init__.py`. -/
def localChar (c : Char) : Bool :=
  c.isAlpha || c.isDigit || c = '.' || c = '_' || c = '%' || c = '+' || c = '-'

/-- Character class `[a-zA-Z0-9.-]` of the domain part of the email
regex. -/
def domainChar (c : Char) : Bool :=
  c.isAlpha || c.isDigit || c = '.' || c = '-'

/-- Splits a character list at the first occurrence of `c`; `none` when
`c` does not occur. -/
def splitAtFirst (c : Char) : List Char → Option (List Char × List Char)
  | [] => none
  | x :: xs =>
    if x = c then some ([], xs)
    else
      match splitAtFirst c xs with
      | none => none
      | some (l, r) => some (x :: l, r)

/-- Decides whether `l` matches the regex tail
`[a-zA-Z0-9.-]+` dot `[a-zA-Z]` two-or-more, anchored on both sides:
every character is a domain character and some dot at position at least 1
is followed only by letters, at least two of them. -/
def domainTail (l : List Char) : Bool :=
  l.all domainChar &&
  (List.range l.length).any fun i =>
    decide (1 ≤ i) && (l.getD i ' ') == '.' &&
    decide (i + 3 ≤ l.length) && (l.drop (i + 1)).all Char.isAlpha

/-- Embedding of `is_valid_email` in `api/send-otp/__init__.py`
(lines 73-77): full match of the anchored pattern
`[a-zA-Z0-9._%+-]+` at `[a-zA-Z0-9.-]+` dot `[a-zA-Z]` two-or-more.
Neither character class contains the at sign, so a match splits the
string at its unique at sign.  (`re.match` with a trailing dollar also
accepts one trailing newline, but the handler validates only stripped
strings, which cannot end in a newline.) -/
def is_valid_email (email : String) : Bool :=
  match splitAtFirst '@' email.data with
  | none => false
  | some (localPart, domainPart) =>
    !localPart.isEmpty && localPart.all localChar && domainTail domainPart

/-- The blocklist `personal_domains` of `is_personal_email` in
`api/send-otp/__init__.py` (lines 84-106), verbatim. -/
def personal_domains : List String :=
  ["gmail.com", "googlemail.com",
   "yahoo.com", "ymail.com", "rocketmail.com",
   "hotmail.com", "outlook.com", "live.com", "msn.com",
   "aol.com",
   "icloud.com", "me.com", "mac.com",
   "protonmail.com", "proton.me",
   "zoho.com",
   "mail.com", "email.com",
   "yandex.com", "ya.ru",
   "gmx.com", "gmx.net",
   "fastmail.com",
   "tutanota.com", "tuta.io",
   "hey.com",
   "rediffmail.com",
   "indiatimes.com",
   "inbox.com", "hushmail.com", "lavabit.com"]

/-- The domain extraction `email.split('@')[1] if '@' in email else ''`:
the segment between the first at sign and the next one (or the end);
the empty string when there is no at sign. -/
def emailDomain (email : String) : String :=
  match splitAtFirst '@' email.data with
  | none => ""
  | some (_, rest) => ⟨rest.takeWhile fun c => c != '@'⟩

/-- Embedding of `is_personal_email` in `api/send-otp/__init__.py`
(lines 79-109): the domain is in the blocklist. -/
def is_personal_email (email : String) : Bool :=
  personal_domains.contains (emailDomain email)

/-- An entry of the email-keyed `otp_storage` of the serverless handlers:
`{'otp', 'organization', 'attempts', 'timestamp'}`. -/
structure AzOtpRecord where
  otp : String
  organization : String
  attempts : Nat
  timestamp : Nat
deriving Repr, DecidableEq

/-- The four distinct responses of `api/send-otp/__init__.py` reachable
from validation onward: the 400 missing-field error, the 400
invalid-email error, the 400 personal-domain error, and the 200
`'OTP sent successfully'` response. -/
inductive AzSendResult where
  | missingFields
  | invalidEmail
  | personalBlocked
  | sent
deriving Repr, DecidableEq

/-- Embedding of `main` in `api/send-otp/__init__.py` (lines 16-63):
normalize the fields, reject missing fields, reject syntactically invalid
emails, reject personal domains, otherwise store
`{otp, organization, attempts: 0, timestamp: now}` under the email and
hand the code to the notifier (`send_otp_email_sendgrid`).  The result is
the response, the resulting storage, and whether delivery was attempted. -/
def az_send_main (now : Nat) (otpCode : String) (email organization : String)
    (storage : StoreMap AzOtpRecord) :
    AzSendResult × StoreMap AzOtpRecord × Bool :=
  let email := pyNorm email
  let organization := pyStrip organization
  if email = "" ∨ organization = "" then
    (.missingFields, storage, false)
  else if !is_valid_email email then
    (.invalidEmail, storage, false)
  else if is_personal_email email then
    (.personalBlocked, storage, false)
  else
    (.sent,
      storage.insert email
        { otp := otpCode, organization := organization, attempts := 0,
          timestamp := now },
      true)

/-! Path lemmas for `verify_otp_core`: one per terminal branch of the
verifier, with the branch conditions as hypotheses. -/

theorem verify_core_wrong_code (t : Nat) (e o oid : String) (st : AppState)
    (rec : OtpRecord)
    (he : e ≠ "") (ho : o ≠ "")
    (hsid : st.session.otp_id = some oid)
    (hrec : st.otp_storage oid = some rec)
    (hexp : t - rec.created_at ≤ 600)
    (hatt : rec.attempts < 3)
    (hem : rec.email = e)
    (hne : rec.otp ≠ o) :
    verify_otp_core t e o st =
      (.invalidCode (3 - (rec.attempts + 1)),
       { st with
           otp_storage :=
             st.otp_storage.insert oid { rec with attempts := rec.attempts + 1 } }) := by
  have h600 : ¬ (t - rec.created_at > 600) := by omega
  have h3 : ¬ (rec.attempts ≥ 3) := by omega
  simp [verify_otp_core, he, ho, hsid, hrec, h600, h3, hem, hne]

theorem verify_core_expired (t : Nat) (e o oid : String) (st : AppState)
    (rec : OtpRecord)
    (he : e ≠ "") (ho : o ≠ "")
    (hsid : st.session.otp_id = some oid)
    (hrec : st.otp_storage oid = some rec)
    (hexp : t - rec.created_at > 600) :
    verify_otp_core t e o st =
      (.otpExpired, { st with otp_storage := st.otp_storage.erase oid }) := by
  simp [verify_otp_core, he, ho, hsid, hrec, hexp]

theorem verify_core_exhausted (t : Nat) (e o oid : String) (st : AppState)
    (rec : OtpRecord)
    (he : e ≠ "") (ho : o ≠ "")
    (hsid : st.session.otp_id = some oid)
    (hrec : st.otp_storage oid = some rec)
    (hexp : t - rec.created_at ≤ 600)
    (hatt : rec.attempts ≥ 3) :
    verify_otp_core t e o st =
      (.tooManyAttempts, { st with otp_storage := st.otp_storage.erase oid }) := by
  have h600 : ¬ (t - rec.created_at > 600) := by omega
  simp [verify_otp_core, he, ho, hsid, hrec, h600, hatt]

theorem verify_core_mismatch (t : Nat) (e o oid : String) (st : AppState)
    (rec : OtpRecord)
    (he : e ≠ "") (ho : o ≠ "")
    (hsid : st.session.otp_id = some oid)
    (hrec : st.otp_storage oid = some rec)
    (hexp : t - rec.created_at ≤ 600)
    (hatt : rec.attempts < 3)
    (hem : rec.email ≠ e) :
    verify_otp_core t e o st =
      (.emailMismatch,
       { st with
           otp_storage :=
             st.otp_storage.insert oid { rec with attempts := rec.attempts + 1 } }) := by
  have h600 : ¬ (t - rec.created_at > 600) := by omega
  have h3 : ¬ (rec.attempts ≥ 3) := by omega
  simp [verify_otp_core, he, ho, hsid, hrec, h600, h3, hem]

theorem verify_core_success (t : Nat) (e o oid : String) (st : AppState)
    (rec : OtpRecord)
    (he : e ≠ "") (ho : o ≠ "")
    (hsid : st.session.otp_id = some oid)
    (hrec : st.otp_storage oid = some rec)
    (hexp : t - rec.created_at ≤ 600)
    (hatt : rec.attempts < 3)
    (hem : rec.email = e)
    (hcode : rec.otp = o) :
    verify_otp_core t e o st =
      (.success,
       { otp_storage :=
           (st.otp_storage.insert oid { rec with attempts := rec.attempts + 1 }).erase oid,
         session :=
           { (add_verified_email e rec.organization t st.session) with
               otp_id := none, pending_email := none } }) := by
  have h600 : ¬ (t - rec.created_at > 600) := by omega
  have h3 : ¬ (rec.attempts ≥ 3) := by omega
  simp [verify_otp_core, he, ho, hsid, hrec, h600, h3, hem, hcode]

theorem send_core_stores (now : Nat) (fid code : String) (delivered : Bool)
    (e org : String) (st : AppState)
    (he : e ≠ "") (ho : org ≠ "")
    (hv : (is_email_verified now e st.session).1 = false) :
    send_otp_core now fid code delivered e org st =
      ((if delivered then .sentOk else .demoOtp code),
       { otp_storage :=
           st.otp_storage.insert fid
             { email := e, otp := code, organization := org,
               created_at := now, attempts := 0 },
         session :=
           { (is_email_verified now e st.session).2 with
               otp_id := some fid, pending_email := some e } }) := by
  rcases hiv : is_email_verified now e st.session with ⟨b, sess1⟩
  rw [hiv] at hv
  simp only at hv
  subst hv
  cases delivered <;> simp [send_otp_core, he, ho, hiv]

theorem verify_core_no_id (t : Nat) (e o : String) (st : AppState)
    (he : e ≠ "") (ho : o ≠ "")
    (hsid : st.session.otp_id = none) :
    verify_otp_core t e o st = (.sessionExpired, st) := by
  simp [verify_otp_core, he, ho, hsid]

theorem verify_core_absent (t : Nat) (e o oid : String) (st : AppState)
    (he : e ≠ "") (ho : o ≠ "")
    (hsid : st.session.otp_id = some oid)
    (hrec : st.otp_storage oid = none) :
    verify_otp_core t e o st = (.sessionExpired, st) := by
  simp [verify_otp_core, he, ho, hsid, hrec]

/-- The handler wrapper unfolded: `verify_otp` is `verify_otp_core` on
the normalized fields. -/
theorem verify_otp_eq (now : Nat) (email otp : String) (st : AppState) :
    verify_otp now email otp st =
      verify_otp_core now (pyNorm email) (pyStrip otp) st := rfl

/-- The handler wrapper unfolded: `send_otp` is `send_otp_core` on the
normalized fields. -/
theorem send_otp_eq (now : Nat) (freshId otpCode : String) (delivered : Bool)
    (email organization : String) (st : AppState) :
    send_otp now freshId otpCode delivered email organization st =
      send_otp_core now freshId otpCode delivered (pyNorm email)
        (pyStrip organization) st := rfl

/-- A successful verification consumes the record: the call answers the
success outcome, the record is deleted, the session id is cleared, and
every later verify call answers the spec-level `Expired` outcome. -/
theorem verify_success_then_expired (t1 : Nat) (e code fid : String)
    (st1 : AppState) (rec : OtpRecord)
    (he : pyNorm e ≠ "") (hw : pyStrip code ≠ "")
    (hsid : st1.session.otp_id = some fid)
    (hrec : st1.otp_storage fid = some rec)
    (hexp : t1 - rec.created_at ≤ 600)
    (hatt : rec.attempts < 3)
    (hem : rec.email = pyNorm e)
    (hcd : rec.otp = pyStrip code) :
    (verify_otp t1 e code st1).1 = .success ∧
    (verify_otp t1 e code st1).2.otp_storage fid = none ∧
    (verify_otp t1 e code st1).2.session.otp_id = none ∧
    (∀ (t2 : Nat) (e2 o2 : String), pyNorm e2 ≠ "" → pyStrip o2 ≠ "" →
      ((verify_otp t2 e2 o2 (verify_otp t1 e code st1).2).1).isExpired = true) := by
  rw [verify_otp_eq,
    verify_core_success t1 (pyNorm e) (pyStrip code) fid st1 rec
      he hw hsid hrec hexp hatt hem hcd]
  dsimp only
  refine ⟨rfl, StoreMap.erase_self _ _, rfl, fun t2 e2 o2 he2 ho2 => ?_⟩
  rw [verify_otp_eq, verify_core_no_id t2 (pyNorm e2) (pyStrip o2) _ he2 ho2 rfl]
  rfl

/-! Concrete fixtures used by the witness theorems. -/

/-- A freshly issued record, as `send_otp` stores it. -/
def wRecord : OtpRecord :=
  { email := "user@acme-corp.com", otp := "123456", organization := "Acme",
    created_at := 0, attempts := 0 }

/-- A session holding the id of `wRecord`. -/
def wSession : Session :=
  { otp_id := some "id1", pending_email := some "user@acme-corp.com",
    verified_emails := StoreMap.empty }

/-- A state with one pending OTP record. -/
def wState : AppState :=
  { otp_storage := StoreMap.empty.insert "id1" wRecord, session := wSession }

/-- A pristine session. -/
def wEmptySession : Session :=
  { otp_id := none, pending_email := none, verified_emails := StoreMap.empty }

/-- A pristine state. -/
def wEmptyState : AppState :=
  { otp_storage := StoreMap.empty, session := wEmptySession }

/-- C1: against one issued OTP record (`attempts = 0`), submitting a wrong
code three times in a row answers, in order, `invalidCode 2` then
`invalidCode 1` then `invalidCode 0`; the third failed attempt leaves the
record stored with `attempts = 3`, and only the fourth call — a lookup on
the already-exhausted record — answers `tooManyAttempts` and deletes it. -/
theorem c1_wrong_code_sequence
    (st : AppState) (oid e w : String) (rec : OtpRecord)
    (t1 t2 t3 t4 : Nat)
    (hsid : st.session.otp_id = some oid)
    (hrec : st.otp_storage oid = some rec)
    (h0 : rec.attempts = 0)
    (hem : rec.email = pyNorm e)
    (he : pyNorm e ≠ "")
    (hw : pyStrip w ≠ "")
    (hne : rec.otp ≠ pyStrip w)
    (ht1 : t1 - rec.created_at ≤ 600) (ht2 : t2 - rec.created_at ≤ 600)
    (ht3 : t3 - rec.created_at ≤ 600) (ht4 : t4 - rec.created_at ≤ 600) :
    (verify_otp t1 e w st).1 = .invalidCode 2 ∧
    (verify_otp t2 e w (verify_otp t1 e w st).2).1 = .invalidCode 1 ∧
    (verify_otp t3 e w (verify_otp t2 e w (verify_otp t1 e w st).2).2).1 =
      .invalidCode 0 ∧
    (verify_otp t3 e w
        (verify_otp t2 e w (verify_otp t1 e w st).2).2).2.otp_storage oid =
      some { rec with attempts := 3 } ∧
    (verify_otp t4 e w (verify_otp t3 e w
        (verify_otp t2 e w (verify_otp t1 e w st).2).2).2).1 =
      .tooManyAttempts ∧
    (verify_otp t4 e w (verify_otp t3 e w
        (verify_otp t2 e w
          (verify_otp t1 e w st).2).2).2).2.otp_storage oid = none := by
  have e1 : verify_otp t1 e w st =
      (.invalidCode (3 - (rec.attempts + 1)),
       { st with
           otp_storage :=
             st.otp_storage.insert oid { rec with attempts := rec.attempts + 1 } }) :=
    verify_core_wrong_code t1 (pyNorm e) (pyStrip w) oid st rec
      he hw hsid hrec ht1 (by omega) hem hne
  have e2 : verify_otp t2 e w
      ({ st with
           otp_storage :=
             st.otp_storage.insert oid { rec with attempts := rec.attempts + 1 } }) =
      (.invalidCode (3 - (rec.attempts + 1 + 1)),
       { st with
           otp_storage :=
             (st.otp_storage.insert oid { rec with attempts := rec.attempts + 1 }).insert
               oid { rec with attempts := rec.attempts + 1 + 1 } }) :=
    verify_core_wrong_code t2 (pyNorm e) (pyStrip w) oid _
      { rec with attempts := rec.attempts + 1 } he hw hsid
      (StoreMap.insert_self _ _ _) ht2
      (by show rec.attempts + 1 < 3; omega) hem hne
  have e3 : verify_otp t3 e w
      ({ st with
           otp_storage :=
             (st.otp_storage.insert oid { rec with attempts := rec.attempts + 1 }).insert
               oid { rec with attempts := rec.attempts + 1 + 1 } }) =
      (.invalidCode (3 - (rec.attempts + 1 + 1 + 1)),
       { st with
           otp_storage :=
             ((st.otp_storage.insert oid
                   { rec with attempts := rec.attempts + 1 }).insert oid
                 { rec with attempts := rec.attempts + 1 + 1 }).insert oid
               { rec with attempts := rec.attempts + 1 + 1 + 1 } }) :=
    verify_core_wrong_code t3 (pyNorm e) (pyStrip w) oid _
      { rec with attempts := rec.attempts + 1 + 1 } he hw hsid
      (StoreMap.insert_self _ _ _) ht3
      (by show rec.attempts + 1 + 1 < 3; omega) hem hne
  have e4 : verify_otp t4 e w
      ({ st with
           otp_storage :=
             ((st.otp_storage.insert oid
                   { rec with attempts := rec.attempts + 1 }).insert oid
                 { rec with attempts := rec.attempts + 1 + 1 }).insert oid
               { rec with attempts := rec.attempts + 1 + 1 + 1 } }) =
      (.tooManyAttempts,
       { st with
           otp_storage :=
             (((st.otp_storage.insert oid
                     { rec with attempts := rec.attempts + 1 }).insert oid
                   { rec with attempts := rec.attempts + 1 + 1 }).insert oid
                 { rec with attempts := rec.attempts + 1 + 1 + 1 }).erase oid }) :=
    verify_core_exhausted t4 (pyNorm e) (pyStrip w) oid _
      { rec with attempts := rec.attempts + 1 + 1 + 1 } he hw hsid
      (StoreMap.insert_self _ _ _) ht4
      (by show rec.attempts + 1 + 1 + 1 ≥ 3; omega)
  rw [e1]; dsimp only
  rw [e2]; dsimp only
  rw [e3]; dsimp only
  rw [e4]; dsimp only
  refine ⟨?_, ?_, ?_, ?_, rfl, ?_⟩
  · rw [h0]
  · rw [h0]
  · rw [h0]
  · rw [StoreMap.insert_self, h0]
  · exact StoreMap.erase_self _ _

/-- Witness for C1 at a concrete state: the first wrong submission
against `wState` answers `invalidCode 2` and the fourth answers
`tooManyAttempts`. -/
theorem c1_wrong_code_sequence_witness :
    (verify_otp 10 "user@acme-corp.com" "000000" wState).1 = .invalidCode 2 ∧
    (verify_otp 40 "user@acme-corp.com" "000000" (verify_otp 30
        "user@acme-corp.com" "000000" (verify_otp 20 "user@acme-corp.com"
          "000000" (verify_otp 10 "user@acme-corp.com" "000000"
            wState).2).2).2).1 = .tooManyAttempts := by
  have h := c1_wrong_code_sequence wState "id1" "user@acme-corp.com" "000000"
    wRecord 10 20 30 40 (by decide) (by decide) (by decide) (by decide)
    (by decide) (by decide) (by decide) (by decide) (by decide) (by decide)
    (by decide)
  exact ⟨h.1, h.2.2.2.2.1⟩

/-- C3: a verify call strictly more than 600 seconds after the record's
creation deletes the record and answers the expiry outcome, whatever the
submitted email and code are — in particular also when they match the
record. -/
theorem c3_expiry_deletes (now : Nat) (e o oid : String) (st : AppState)
    (rec : OtpRecord)
    (he : pyNorm e ≠ "") (ho : pyStrip o ≠ "")
    (hsid : st.session.otp_id = some oid)
    (hrec : st.otp_storage oid = some rec)
    (hexp : now - rec.created_at > 600) :
    (verify_otp now e o st).1 = .otpExpired ∧
    (verify_otp now e o st).1.isExpired = true ∧
    (verify_otp now e o st).2.otp_storage oid = none := by
  have h : verify_otp now e o st =
      (.otpExpired, { st with otp_storage := st.otp_storage.erase oid }) :=
    verify_core_expired now (pyNorm e) (pyStrip o) oid st rec he ho hsid hrec hexp
  rw [h]; dsimp only
  exact ⟨rfl, rfl, StoreMap.erase_self _ _⟩

/-- Witness for C3: 601 seconds after issuance, the correct code and the
matching email still get the expiry outcome and the record is gone. -/
theorem c3_expiry_deletes_witness :
    (verify_otp 601 "user@acme-corp.com" "123456" wState).1 = .otpExpired ∧
    (verify_otp 601 "user@acme-corp.com" "123456"
        wState).2.otp_storage "id1" = none := by
  have h := c3_expiry_deletes 601 "user@acme-corp.com" "123456" "id1" wState
    wRecord (by decide) (by decide) (by decide) (by decide) (by decide)
  exact ⟨h.1, h.2.2⟩

/-- C5: a verify call on a live (non-expired, non-exhausted) record whose
email does not match answers the mismatch outcome, does not delete the
record, increments its attempt counter by exactly one with every other
field unchanged, leaves every other stored record untouched, and leaves
the session untouched. -/
theorem c5_mismatch_counts_attempt (now : Nat) (e o oid : String)
    (st : AppState) (rec : OtpRecord)
    (he : pyNorm e ≠ "") (ho : pyStrip o ≠ "")
    (hsid : st.session.otp_id = some oid)
    (hrec : st.otp_storage oid = some rec)
    (hexp : now - rec.created_at ≤ 600)
    (hatt : rec.attempts < 3)
    (hdiff : rec.email ≠ pyNorm e) :
    (verify_otp now e o st).1 = .emailMismatch ∧
    (verify_otp now e o st).2.otp_storage oid =
      some { rec with attempts := rec.attempts + 1 } ∧
    (∀ id, id ≠ oid →
      (verify_otp now e o st).2.otp_storage id = st.otp_storage id) ∧
    (verify_otp now e o st).2.session = st.session := by
  have h : verify_otp now e o st =
      (.emailMismatch,
       { st with
           otp_storage :=
             st.otp_storage.insert oid { rec with attempts := rec.attempts + 1 } }) :=
    verify_core_mismatch now (pyNorm e) (pyStrip o) oid st rec
      he ho hsid hrec hexp hatt hdiff
  rw [h]; dsimp only
  exact ⟨rfl, StoreMap.insert_self _ _ _,
    fun id hid => StoreMap.insert_ne _ _ _ _ hid, rfl⟩

/-- Witness for C5: a mismatching email against `wState` answers the
mismatch outcome and the record survives with `attempts = 1`. -/
theorem c5_mismatch_counts_attempt_witness :
    (verify_otp 10 "other@corp.com" "123456" wState).1 = .emailMismatch ∧
    (verify_otp 10 "other@corp.com" "123456" wState).2.otp_storage "id1" =
      some { wRecord with attempts := 1 } := by
  have h := c5_mismatch_counts_attempt 10 "other@corp.com" "123456" "id1"
    wState wRecord (by decide) (by decide) (by decide) (by decide)
    (by decide) (by decide) (by decide)
  exact ⟨h.1, h.2.1⟩

/-- C2: in the serverless issuance handler, a syntactically invalid email
is rejected with the invalid-email error, and a valid email whose domain
is blocklisted is rejected with the personal-domain error; in both cases
the storage is returned unchanged (no record created) and delivery is
never attempted.  A valid, non-blocklisted email passes: a fresh record
with `attempts = 0` is stored under the email and delivery is attempted. -/
theorem c2_issuance_validation (now : Nat) (code e org : String)
    (storage : StoreMap AzOtpRecord)
    (he : pyNorm e ≠ "") (ho : pyStrip org ≠ "") :
    (is_valid_email (pyNorm e) = false →
      az_send_main now code e org storage = (.invalidEmail, storage, false)) ∧
    (is_valid_email (pyNorm e) = true → is_personal_email (pyNorm e) = true →
      az_send_main now code e org storage =
        (.personalBlocked, storage, false)) ∧
    (is_valid_email (pyNorm e) = true → is_personal_email (pyNorm e) = false →
      az_send_main now code e org storage =
        (.sent,
         storage.insert (pyNorm e)
           { otp := code, organization := pyStrip org, attempts := 0,
             timestamp := now },
         true)) := by
  refine ⟨fun h1 => ?_, fun h1 h2 => ?_, fun h1 h2 => ?_⟩ <;>
    simp [az_send_main, he, ho, h1]
  · simp [h2]
  · simp [h2]

/-- Witness for C2: `user@gmail.com` is blocked as personal,
`not-an-email` is rejected as invalid, `user@acme-corp.com` is accepted. -/
theorem c2_issuance_validation_witness :
    (az_send_main 0 "111111" "user@gmail.com" "Acme" StoreMap.empty).1 =
      .personalBlocked ∧
    (az_send_main 0 "111111" "not-an-email" "Acme" StoreMap.empty).1 =
      .invalidEmail ∧
    (az_send_main 0 "111111" "user@acme-corp.com" "Acme" StoreMap.empty).1 =
      .sent := by
  have h1 := c2_issuance_validation 0 "111111" "user@gmail.com" "Acme"
    StoreMap.empty (by decide) (by decide)
  have h2 := c2_issuance_validation 0 "111111" "not-an-email" "Acme"
    StoreMap.empty (by decide) (by decide)
  have h3 := c2_issuance_validation 0 "111111" "user@acme-corp.com" "Acme"
    StoreMap.empty (by decide) (by decide)
  refine ⟨?_, ?_, ?_⟩
  · rw [h1.2.1 (by decide) (by decide)]
  · rw [h2.1 (by decide)]
  · rw [h3.2.2 (by decide) (by decide)]

/-- C4: issuing for some email (valid, non-personal — `app.py` in fact
stores for any email) and immediately verifying with the correct code and
matching email answers the success outcome exactly once and deletes the
record: any second verify call afterwards answers the spec-level
`Expired` outcome.  Moreover (second conjunct) a verify call whose
session id is absent from the store — never issued, already consumed or
expired — answers the same `Expired` outcome, so the three cases are
indistinguishable to the caller. -/
theorem c4_success_consumes_record :
    (∀ (st : AppState) (t0 t1 : Nat) (fid code e org : String)
       (delivered : Bool),
      pyNorm e ≠ "" → pyStrip org ≠ "" →
      is_valid_email (pyNorm e) = true →
      is_personal_email (pyNorm e) = false →
      (is_email_verified t0 (pyNorm e) st.session).1 = false →
      pyStrip code = code → code ≠ "" →
      t1 - t0 ≤ 600 →
      (verify_otp t1 e code
          (send_otp t0 fid code delivered e org st).2).1 = .success ∧
      (verify_otp t1 e code
          (send_otp t0 fid code delivered e org st).2).2.otp_storage fid =
        none ∧
      (∀ (t2 : Nat) (e2 o2 : String), pyNorm e2 ≠ "" → pyStrip o2 ≠ "" →
        ((verify_otp t2 e2 o2 (verify_otp t1 e code
            (send_otp t0 fid code delivered e org st).2).2).1).isExpired =
          true)) ∧
    (∀ (st : AppState) (now : Nat) (e o oid : String),
      pyNorm e ≠ "" → pyStrip o ≠ "" →
      st.session.otp_id = some oid → st.otp_storage oid = none →
      (verify_otp now e o st).1 = .sessionExpired ∧
      ((verify_otp now e o st).1).isExpired = true) := by
  constructor
  · intro st t0 t1 fid code e org delivered he ho hval hpers hv hcode hcne ht
    have hw : pyStrip code ≠ "" := by rw [hcode]; exact hcne
    have h1 : (send_otp t0 fid code delivered e org st).2.session.otp_id =
        some fid := by
      rw [send_otp_eq,
        send_core_stores t0 fid code delivered (pyNorm e) (pyStrip org) st
          he ho hv]
    have h2 : (send_otp t0 fid code delivered e org st).2.otp_storage fid =
        some { email := pyNorm e, otp := code, organization := pyStrip org,
               created_at := t0, attempts := 0 } := by
      rw [send_otp_eq,
        send_core_stores t0 fid code delivered (pyNorm e) (pyStrip org) st
          he ho hv]
      exact StoreMap.insert_self _ _ _
    have h := verify_success_then_expired t1 e code fid
      (send_otp t0 fid code delivered e org st).2
      { email := pyNorm e, otp := code, organization := pyStrip org,
        created_at := t0, attempts := 0 }
      he hw h1 h2 ht (by show (0:Nat) < 3; omega) rfl hcode.symm
    exact ⟨h.1, h.2.1, h.2.2.2⟩
  · intro st now e o oid he ho hsid hrec
    rw [verify_otp_eq,
      verify_core_absent now (pyNorm e) (pyStrip o) oid st he ho hsid hrec]
    exact ⟨rfl, rfl⟩

/-- Witness for C4: issue then verify succeeds, a repeat verify gets the
`Expired` outcome, and a verify against a session id that was never
stored gets the `Expired` outcome. -/
theorem c4_success_consumes_record_witness :
    (verify_otp 10 "user@acme-corp.com" "123456"
        (send_otp 0 "id1" "123456" true "user@acme-corp.com" "Acme"
          wEmptyState).2).1 = .success ∧
    ((verify_otp 20 "user@acme-corp.com" "123456"
        (verify_otp 10 "user@acme-corp.com" "123456"
          (send_otp 0 "id1" "123456" true "user@acme-corp.com" "Acme"
            wEmptyState).2).2).1).isExpired = true ∧
    ((verify_otp 5 "user@acme-corp.com" "123456"
        { otp_storage := StoreMap.empty, session := wSession }).1).isExpired =
      true := by
  have h := c4_success_consumes_record
  have hA := h.1 wEmptyState 0 10 "id1" "123456" "user@acme-corp.com" "Acme"
    true (by decide) (by decide) (by decide) (by decide) (by decide)
    (by decide) (by decide) (by decide)
  have hB := h.2 { otp_storage := StoreMap.empty, session := wSession } 5
    "user@acme-corp.com" "123456" "id1" (by decide) (by decide) (by decide)
    (by decide)
  exact ⟨hA.1, hA.2.2 20 "user@acme-corp.com" "123456" (by decide) (by decide),
    hB.2⟩

/-- C6: a registry lookup strictly within 24 hours of `verified_at`
reports the email verified and leaves the session untouched; once 24
hours have passed the lookup reports unverified, deletes the entry, and
every later lookup on the resulting session reports unverified at any
time — the email is treated as never verified. -/
theorem c6_verified_window (now : Nat) (e : String) (sess : Session)
    (entry : VerifiedEntry)
    (hl : sess.verified_emails e = some entry) :
    (now - entry.verified_at < 24 * 60 * 60 →
      is_email_verified now e sess = (true, sess)) ∧
    (24 * 60 * 60 ≤ now - entry.verified_at →
      (is_email_verified now e sess).1 = false ∧
      (is_email_verified now e sess).2.verified_emails e = none ∧
      (∀ t : Nat, (is_email_verified t e (is_email_verified now e sess).2).1 =
        false)) := by
  constructor
  · intro h
    simp [is_email_verified, hl, h]
  · intro h
    have h' : ¬ (now - entry.verified_at < 24 * 60 * 60) := by omega
    have hstep : is_email_verified now e sess =
        (false, { sess with verified_emails := sess.verified_emails.erase e }) := by
      simp [is_email_verified, hl, h']
    rw [hstep]; dsimp only
    refine ⟨rfl, StoreMap.erase_self _ _, fun t => ?_⟩
    simp [is_email_verified, StoreMap.erase_self]

/-- Witness for C6: with `verified_at = 0`, a lookup at 23h59m (86340 s)
reports verified and a lookup at 24h01m (86460 s) reports unverified. -/
theorem c6_verified_window_witness :
    (is_email_verified 86340 "user@acme-corp.com"
        { otp_id := none, pending_email := none,
          verified_emails :=
            StoreMap.empty.insert "user@acme-corp.com" ⟨"Acme", 0⟩ }).1 =
      true ∧
    (is_email_verified 86460 "user@acme-corp.com"
        { otp_id := none, pending_email := none,
          verified_emails :=
            StoreMap.empty.insert "user@acme-corp.com" ⟨"Acme", 0⟩ }).1 =
      false := by
  have h1 := c6_verified_window 86340 "user@acme-corp.com"
    { otp_id := none, pending_email := none,
      verified_emails := StoreMap.empty.insert "user@acme-corp.com" ⟨"Acme", 0⟩ }
    ⟨"Acme", 0⟩ (by decide)
  have h2 := c6_verified_window 86460 "user@acme-corp.com"
    { otp_id := none, pending_email := none,
      verified_emails := StoreMap.empty.insert "user@acme-corp.com" ⟨"Acme", 0⟩ }
    ⟨"Acme", 0⟩ (by decide)
  refine ⟨?_, (h2.2 (by decide)).1⟩
  rw [h1.1 (by decide)]

/-- C9: when the notifier fails (`delivered = false`), issuance still
completes: the response is the success response carrying the demo code,
`success` is reported true, the freshly stored record stays in the store,
and the id is handed to the caller through the session, so verification
can proceed.  `send_otp` is a total function into `SendResult`: the
delivery failure is a value, never a propagated error. -/
theorem c9_delivery_failure_nonfatal (t0 : Nat) (fid code e org : String)
    (st : AppState)
    (he : pyNorm e ≠ "") (ho : pyStrip org ≠ "")
    (hv : (is_email_verified t0 (pyNorm e) st.session).1 = false) :
    (send_otp t0 fid code false e org st).1 = .demoOtp code ∧
    ((send_otp t0 fid code false e org st).1).success_flag = true ∧
    (send_otp t0 fid code false e org st).2.otp_storage fid =
      some { email := pyNorm e, otp := code, organization := pyStrip org,
             created_at := t0, attempts := 0 } ∧
    (send_otp t0 fid code false e org st).2.session.otp_id = some fid := by
  rw [send_otp_eq,
    send_core_stores t0 fid code false (pyNorm e) (pyStrip org) st he ho hv]
  refine ⟨?_, ?_, ?_, ?_⟩ <;>
    simp [StoreMap.insert_self, SendResult.success_flag]

/-- Witness for C9: on a pristine state with delivery failing, issuance
answers the demo response and the record is stored under the fresh id. -/
theorem c9_delivery_failure_nonfatal_witness :
    (send_otp 0 "id1" "123456" false "user@acme-corp.com" "Acme"
        wEmptyState).1 = .demoOtp "123456" ∧
    (send_otp 0 "id1" "123456" false "user@acme-corp.com" "Acme"
        wEmptyState).2.otp_storage "id1" =
      some { email := "user@acme-corp.com", otp := "123456",
             organization := "Acme", created_at := 0, attempts := 0 } := by
  have h := c9_delivery_failure_nonfatal 0 "id1" "123456" "user@acme-corp.com"
    "Acme" wEmptyState (by decide) (by decide) (by decide)
  exact ⟨h.1, h.2.2.1⟩

/-- C10 (implicit): when delivery fails, the issuance response still
reports `success: true` and additionally carries the `demo_otp` field,
whose value is exactly the secret code of the record that was just
stored — a caller who never receives the email can read the code from
the response body. -/
theorem c10_demo_otp_leaks_code (t0 : Nat) (fid code e org : String)
    (st : AppState)
    (he : pyNorm e ≠ "") (ho : pyStrip org ≠ "")
    (hv : (is_email_verified t0 (pyNorm e) st.session).1 = false) :
    ((send_otp t0 fid code false e org st).1).success_flag = true ∧
    ((send_otp t0 fid code false e org st).1).demo_otp = some code ∧
    (∃ rec : OtpRecord,
      (send_otp t0 fid code false e org st).2.otp_storage fid = some rec ∧
      rec.otp = code) := by
  rw [send_otp_eq,
    send_core_stores t0 fid code false (pyNorm e) (pyStrip org) st he ho hv]
  refine ⟨by simp [SendResult.success_flag], by simp [SendResult.demo_otp],
    ⟨{ email := pyNorm e, otp := code, organization := pyStrip org,
       created_at := t0, attempts := 0 }, ?_, rfl⟩⟩
  simp [StoreMap.insert_self]

/-- Witness for C10: the concrete response exposes the stored code in
`demo_otp`. -/
theorem c10_demo_otp_leaks_code_witness :
    ((send_otp 7 "id2" "654321" false "ceo@initech.org" "Initech"
        wEmptyState).1).demo_otp = some "654321" := by
  have h := c10_demo_otp_leaks_code 7 "id2" "654321" "ceo@initech.org"
    "Initech" wEmptyState (by decide) (by decide) (by decide)
  exact h.2.1

theorem char_digit_toNat (d : Nat) (hd : d < 10) :
    (Char.ofNat (48 + d)).toNat = 48 + d := by
  interval_cases d <;> decide

theorem char_digit_isDigit (d : Nat) (hd : d < 10) :
    (Char.ofNat (48 + d)).isDigit = true := by
  interval_cases d <;> decide

theorem foldl_digits_map (l : List Nat) (hd : ∀ d ∈ l, d < 10) (a : Nat) :
    (l.map fun d => Char.ofNat (48 + d)).foldl
        (fun acc c => 10 * acc + (c.toNat - 48)) a =
      l.foldl (fun acc d => 10 * acc + d) a := by
  induction l generalizing a with
  | nil => rfl
  | cons x xs ih =>
    simp only [List.map_cons, List.foldl_cons]
    rw [char_digit_toNat x (hd x (by simp))]
    have hx : 48 + x - 48 = x := by omega
    rw [hx]
    exact ih (fun d hdm => hd d (by simp [hdm])) _

theorem foldl_reverse_ofDigits (l : List Nat) :
    l.reverse.foldl (fun acc d => 10 * acc + d) 0 = Nat.ofDigits 10 l := by
  induction l with
  | nil => simp [Nat.ofDigits]
  | cons x xs ih =>
    simp only [List.reverse_cons, List.foldl_append, List.foldl_cons,
      List.foldl_nil]
    rw [ih, Nat.ofDigits_cons]
    ring

/-- C8: for every value the random source can produce
(`random.randint(100000, 999999)` guarantees `100000 ≤ n ≤ 999999`), the
generated code is a string of exactly 6 characters, all of them decimal
digits, and the number those digits denote is `n` itself, hence lies in
`[100000, 999999]`. -/
theorem c8_code_is_six_digits (n : Nat) (h1 : 100000 ≤ n)
    (h2 : n ≤ 999999) :
    (generate_otp n).length = 6 ∧
    (generate_otp n).data.all Char.isDigit = true ∧
    decodeDigits (generate_otp n) = n ∧
    100000 ≤ decodeDigits (generate_otp n) ∧
    decodeDigits (generate_otp n) ≤ 999999 := by
  have hlog : Nat.log 10 n = 5 :=
    Nat.log_eq_of_pow_le_of_lt_pow (by norm_num; omega) (by norm_num; omega)
  have hlen : (Nat.digits 10 n).length = 6 := by
    rw [Nat.digits_len 10 n (by norm_num) (by omega), hlog]
  have hdlt : ∀ d ∈ Nat.digits 10 n, d < 10 := fun d hd =>
    Nat.digits_lt_base (by norm_num) hd
  have hdec : decodeDigits (generate_otp n) = n := by
    show ((Nat.digits 10 n).reverse.map fun d => Char.ofNat (48 + d)).foldl
        (fun a c => 10 * a + (c.toNat - 48)) 0 = n
    rw [foldl_digits_map _ (fun d hd => hdlt d (List.mem_reverse.mp hd)) 0,
      foldl_reverse_ofDigits, Nat.ofDigits_digits]
  refine ⟨?_, ?_, hdec, by omega, by omega⟩
  · show ((Nat.digits 10 n).reverse.map fun d => Char.ofNat (48 + d)).length = 6
    simp [hlen]
  · show ((Nat.digits 10 n).reverse.map fun d => Char.ofNat (48 + d)).all
        Char.isDigit = true
    rw [List.all_eq_true]
    intro c hc
    rw [List.mem_map] at hc
    obtain ⟨d, hdm, rfl⟩ := hc
    exact char_digit_isDigit d (hdlt d (List.mem_reverse.mp hdm))

/-- Witness for C8 at the draw `n = 123456`. -/
theorem c8_code_is_six_digits_witness :
    (generate_otp 123456).length = 6 ∧
    decodeDigits (generate_otp 123456) = 123456 := by
  have h := c8_code_is_six_digits 123456 (by decide) (by decide)
  exact ⟨h.1, h.2.2.1⟩

/-- Effect of one `verify_otp_core` call on the store: either the store
is untouched, or the session's id points at a stored record and the call
either erases it (expiry or exhaustion), or bumps its attempt counter in
place (mismatch or wrong code), or bumps and then erases it (success). -/
theorem verify_core_effect (t : Nat) (e o : String) (st : AppState) :
    (verify_otp_core t e o st).2.otp_storage = st.otp_storage ∨
    ∃ oid rec, st.session.otp_id = some oid ∧ st.otp_storage oid = some rec ∧
      ((((verify_otp_core t e o st).1 = .otpExpired ∨
         (verify_otp_core t e o st).1 = .tooManyAttempts) ∧
        (verify_otp_core t e o st).2.otp_storage = st.otp_storage.erase oid) ∨
       (((verify_otp_core t e o st).1 = .emailMismatch ∨
         (verify_otp_core t e o st).1 = .invalidCode (3 - (rec.attempts + 1))) ∧
        (verify_otp_core t e o st).2.otp_storage =
          st.otp_storage.insert oid { rec with attempts := rec.attempts + 1 }) ∨
       ((verify_otp_core t e o st).1 = .success ∧
        (verify_otp_core t e o st).2.otp_storage =
          (st.otp_storage.insert oid
            { rec with attempts := rec.attempts + 1 }).erase oid)) := by
  by_cases hmt : (e = "" ∨ o = "")
  · left; simp [verify_otp_core, hmt]
  · have he : e ≠ "" := (not_or.mp hmt).1
    have ho : o ≠ "" := (not_or.mp hmt).2
    rcases hsid : st.session.otp_id with _ | oid
    · left
      rw [verify_core_no_id t e o st he ho hsid]
    · rcases hrec : st.otp_storage oid with _ | rec
      · left
        rw [verify_core_absent t e o oid st he ho hsid hrec]
      · by_cases hexp : t - rec.created_at > 600
        · refine Or.inr ⟨oid, rec, rfl, hrec, Or.inl ⟨Or.inl ?_, ?_⟩⟩ <;>
            rw [verify_core_expired t e o oid st rec he ho hsid hrec hexp]
        · have hexp' : t - rec.created_at ≤ 600 := by omega
          by_cases hatt : rec.attempts ≥ 3
          · refine Or.inr ⟨oid, rec, rfl, hrec, Or.inl ⟨Or.inr ?_, ?_⟩⟩ <;>
              rw [verify_core_exhausted t e o oid st rec he ho hsid hrec
                hexp' hatt]
          · have hatt' : rec.attempts < 3 := by omega
            by_cases hemm : rec.email = e
            · by_cases hcd : rec.otp = o
              · refine Or.inr ⟨oid, rec, rfl, hrec,
                  Or.inr (Or.inr ⟨?_, ?_⟩)⟩ <;>
                  rw [verify_core_success t e o oid st rec he ho hsid hrec
                    hexp' hatt' hemm hcd]
              · refine Or.inr ⟨oid, rec, rfl, hrec,
                  Or.inr (Or.inl ⟨Or.inr ?_, ?_⟩)⟩ <;>
                  rw [verify_core_wrong_code t e o oid st rec he ho hsid hrec
                    hexp' hatt' hemm hcd]
            · refine Or.inr ⟨oid, rec, rfl, hrec,
                Or.inr (Or.inl ⟨Or.inl ?_, ?_⟩)⟩ <;>
                rw [verify_core_mismatch t e o oid st rec he ho hsid hrec
                  hexp' hatt' hemm]

/-- Effect of one `send_otp_core` call on the store: either untouched
(missing field or already-verified shortcut), or exactly one fresh
record with `attempts = 0` inserted under the fresh id. -/
theorem send_core_effect (now : Nat) (fid code : String) (delivered : Bool)
    (e org : String) (st : AppState) :
    (send_otp_core now fid code delivered e org st).2.otp_storage =
      st.otp_storage ∨
    (send_otp_core now fid code delivered e org st).2.otp_storage =
      st.otp_storage.insert fid
        { email := e, otp := code, organization := org, created_at := now,
          attempts := 0 } := by
  by_cases hmt : (e = "" ∨ org = "")
  · left; simp [send_otp_core, hmt]
  · rcases hiv : is_email_verified now e st.session with ⟨b, sess1⟩
    cases b
    · right
      rw [send_core_stores now fid code delivered e org st (not_or.mp hmt).1
        (not_or.mp hmt).2 (by rw [hiv])]
    · left; simp [send_otp_core, hmt, hiv]

/-- C7: lifecycle invariants of the attempt counter and of deletion.
(a) A verify call never decreases the attempt counter of any stored
record.  (b) A verify call never creates or resurrects a record: an
absent id stays absent, so a deleted record stays deleted under every
later verify call.  (c) A verify call deletes a record only for one of
the three reasons: success, expiry detection, or a lookup finding the
attempt ceiling (3) already reached.  (d) Issuance stores a record with
`attempts = 0` under its fresh id and touches no other id.  (e) Issuance
under a genuinely fresh id (the `secrets.token_urlsafe` contract) never
decreases any attempt counter. -/
theorem c7_attempts_lifecycle :
    (∀ (now : Nat) (e o : String) (st : AppState) (id : String)
       (rec rec' : OtpRecord),
      st.otp_storage id = some rec →
      (verify_otp now e o st).2.otp_storage id = some rec' →
      rec.attempts ≤ rec'.attempts) ∧
    (∀ (now : Nat) (e o : String) (st : AppState) (id : String),
      st.otp_storage id = none →
      (verify_otp now e o st).2.otp_storage id = none) ∧
    (∀ (now : Nat) (e o : String) (st : AppState) (id : String)
       (rec : OtpRecord),
      st.otp_storage id = some rec →
      (verify_otp now e o st).2.otp_storage id = none →
      (verify_otp now e o st).1 = .success ∨
      (verify_otp now e o st).1 = .otpExpired ∨
      (verify_otp now e o st).1 = .tooManyAttempts) ∧
    (∀ (now : Nat) (fid code : String) (delivered : Bool) (e org : String)
       (st : AppState) (id : String) (rec' : OtpRecord),
      (send_otp now fid code delivered e org st).2.otp_storage id =
        some rec' →
      st.otp_storage id = some rec' ∨ (id = fid ∧ rec'.attempts = 0)) ∧
    (∀ (now : Nat) (fid code : String) (delivered : Bool) (e org : String)
       (st : AppState),
      st.otp_storage fid = none →
      ∀ (id : String) (rec rec' : OtpRecord),
        st.otp_storage id = some rec →
        (send_otp now fid code delivered e org st).2.otp_storage id =
          some rec' →
        rec.attempts ≤ rec'.attempts) := by
  have hver := fun (now : Nat) (e o : String) (st : AppState) =>
    verify_core_effect now (pyNorm e) (pyStrip o) st
  have hsend := fun (now : Nat) (fid code : String) (delivered : Bool)
      (e org : String) (st : AppState) =>
    send_core_effect now fid code delivered (pyNorm e) (pyStrip org) st
  refine ⟨?_, ?_, ?_, ?_, ?_⟩
  · intro now e o st id rec rec' h1 h2
    rw [verify_otp_eq] at h2
    rcases hver now e o st with h | ⟨oid, rec0, hsid, hrec0, hc⟩
    · rw [h, h1] at h2
      injection h2 with h2
      subst h2
      exact Nat.le.refl
    · by_cases hid : id = oid
      · subst hid
        rw [h1] at hrec0
        injection hrec0 with hrec0
        subst hrec0
        rcases hc with ⟨_, hst⟩ | ⟨_, hst⟩ | ⟨_, hst⟩ <;> rw [hst] at h2
        · rw [StoreMap.erase_self] at h2; exact absurd h2 (by simp)
        · rw [StoreMap.insert_self] at h2
          injection h2 with h2
          subst h2
          simp
        · rw [StoreMap.erase_self] at h2; exact absurd h2 (by simp)
      · rcases hc with ⟨_, hst⟩ | ⟨_, hst⟩ | ⟨_, hst⟩ <;> rw [hst] at h2
        · rw [StoreMap.erase_ne _ _ _ hid, h1] at h2
          injection h2 with h2; subst h2; exact Nat.le.refl
        · rw [StoreMap.insert_ne _ _ _ _ hid, h1] at h2
          injection h2 with h2; subst h2; exact Nat.le.refl
        · rw [StoreMap.erase_ne _ _ _ hid,
            StoreMap.insert_ne _ _ _ _ hid, h1] at h2
          injection h2 with h2; subst h2; exact Nat.le.refl
  · intro now e o st id h1
    rw [verify_otp_eq]
    rcases hver now e o st with h | ⟨oid, rec0, hsid, hrec0, hc⟩
    · rw [h]; exact h1
    · have hid : id ≠ oid := fun hh => by rw [hh, hrec0] at h1; cases h1
      rcases hc with ⟨_, hst⟩ | ⟨_, hst⟩ | ⟨_, hst⟩ <;> rw [hst]
      · rw [StoreMap.erase_ne _ _ _ hid]; exact h1
      · rw [StoreMap.insert_ne _ _ _ _ hid]; exact h1
      · rw [StoreMap.erase_ne _ _ _ hid,
          StoreMap.insert_ne _ _ _ _ hid]; exact h1
  · intro now e o st id rec h1 h2
    rw [verify_otp_eq] at h2 ⊢
    rcases hver now e o st with h | ⟨oid, rec0, hsid, hrec0, hc⟩
    · rw [h, h1] at h2; cases h2
    · by_cases hid : id = oid
      · subst hid
        rcases hc with ⟨hout, _⟩ | ⟨_, hst⟩ | ⟨hout, _⟩
        · right; exact hout
        · rw [hst, StoreMap.insert_self] at h2; cases h2
        · left; exact hout
      · rcases hc with ⟨_, hst⟩ | ⟨_, hst⟩ | ⟨_, hst⟩ <;>
          rw [hst] at h2
        · rw [StoreMap.erase_ne _ _ _ hid, h1] at h2; cases h2
        · rw [StoreMap.insert_ne _ _ _ _ hid, h1] at h2; cases h2
        · rw [StoreMap.erase_ne _ _ _ hid,
            StoreMap.insert_ne _ _ _ _ hid, h1] at h2; cases h2
  · intro now fid code delivered e org st id rec' h2
    rw [send_otp_eq] at h2
    rcases hsend now fid code delivered e org st with h | h
    · rw [h] at h2; exact Or.inl h2
    · by_cases hid : id = fid
      · subst hid
        rw [h, StoreMap.insert_self] at h2
        injection h2 with h2
        subst h2
        exact Or.inr ⟨rfl, rfl⟩
      · rw [h, StoreMap.insert_ne _ _ _ _ hid] at h2
        exact Or.inl h2
  · intro now fid code delivered e org st hfresh id rec rec' h1 h2
    rw [send_otp_eq] at h2
    have hid : id ≠ fid := fun hh => by rw [hh, hfresh] at h1; cases h1
    rcases hsend now fid code delivered e org st with h | h <;> rw [h] at h2
    · rw [h1] at h2; injection h2 with h2; subst h2; exact Nat.le.refl
    · rw [StoreMap.insert_ne _ _ _ _ hid, h1] at h2
      injection h2 with h2; subst h2; exact Nat.le.refl

/-- Witness for C7 at a concrete transition: a failed attempt against
`wState` leaves the record with a counter not below its old value. -/
theorem c7_attempts_lifecycle_witness :
    wRecord.attempts ≤
      ({ wRecord with attempts := 1 } : OtpRecord).attempts := by
  have h := c7_attempts_lifecycle
  exact h.1 10 "other@corp.com" "123456" wState "id1" wRecord
    { wRecord with attempts := 1 } (by decide) (by decide)

end GccOtp
